import Mathlib

/-!
Formal model of `grpc_server.go` from the go-plugin repository: the
`GRPCServer` plugin-server bootstrap.  Go values are shallowly embedded:

* Go strings are modelled as Lean `String` (sequences of Unicode scalar
  values); maps are modelled as association lists carrying the iteration
  order that a concrete `range` traversal of the Go map would use;
* methods that mutate their receiver are modelled as functions returning
  the updated receiver together with their Go return values;
* `nil`-able fields become `Option`; a Go `error` result becomes
  `Option String` (`none` = `nil` error, `some msg` = error with message
  `msg`).

External collaborator types (`tls.Config`, `grpc.Server`, `io.Reader`,
`chan struct\x7b\x7d`) are modelled just deeply enough for the behaviour
`grpc_server.go` depends on.
-/

namespace tls

/-- Model of Go `crypto/tls.Config`: opaque certificate/key material.  The
bootstrap never inspects it, so it is represented by an abstract identifier. -/
structure Config where
  id : Nat
deriving DecidableEq

end tls

namespace credentials

/-- Model of `google.golang.org/grpc/credentials.TransportCredentials` as
produced by `credentials.NewTLS`: a wrapper around the TLS configuration. -/
structure TransportCredentials where
  config : tls.Config
deriving DecidableEq

/-- Model of `credentials.NewTLS(c)`: wrap the TLS configuration. -/
def NewTLS (c : tls.Config) : TransportCredentials :=
  ⟨c⟩

end credentials

namespace grpc

/-- Model of `grpc.ServerOption`: the only option `grpc_server.go` ever
constructs is `grpc.Creds(...)`. -/
inductive ServerOption where
  | Creds (c : credentials.TransportCredentials)
deriving DecidableEq

/-- Model of `google.golang.org/grpc.Server`: the options it was constructed
with and the service surfaces registered onto it (in registration order,
identified by name). -/
structure Server where
  opts : List ServerOption
  services : List String
deriving DecidableEq

/-- Model of `grpc.NewServer(opts...)`: a fresh server with the given options
and no services registered yet. -/
def NewServer (opts : List ServerOption) : Server :=
  ⟨opts, []⟩

end grpc

/-- Model of a Go `io.Reader` handle: the bootstrap stores but never reads it,
so it is an abstract identifier. -/
structure IOReader where
  id : Nat
deriving DecidableEq

/-- Model of a Go `chan struct\x7b\x7d` handle, as stored in the `DoneCh`
field; the dynamics of closing/receiving are modelled separately by the
`ServeStep` transition system. -/
structure GoChan where
  id : Nat
deriving DecidableEq

/-- Modelled from the spec: the `GRPCPlugin` interface is declared outside the
shown source file.  Its `GRPCServer(s *grpc.Server) error` method attaches the
plugin's service surface to the server: on success it registers exactly one
service surface for this plugin, on failure it returns an error and registers
nothing. -/
structure GRPCPlugin where
  surface : String
  attachErr : Option String
deriving DecidableEq

/-- Modelled from the spec: the attach operation of a `GRPCPlugin`
(`p.GRPCServer(srv)` in Go).  Returns the Go error and the updated server. -/
def GRPCPlugin.GRPCServerAttach (p : GRPCPlugin) (srv : grpc.Server) :
    Option String × grpc.Server :=
  match p.attachErr with
  | some e => (some e, srv)
  | none => (none, { srv with services := srv.services ++ [p.surface] })

/-- Modelled from the spec: a polymorphic plugin handle (the `Plugin`
interface, declared outside the shown source).  A handle either additionally
implements `GRPCPlugin` or it does not; the `raw.(GRPCPlugin)` type assertion
in `Init` distinguishes the two cases. -/
inductive Plugin where
  | grpcCompatible (p : GRPCPlugin)
  | notGrpcCompatible
deriving DecidableEq

/-- The handshake configuration structure (`GRPCServerConfig`), lines
107-110: two address strings with fixed JSON field names `stdout_addr` and
`stderr_addr`. -/
structure GRPCServerConfig where
  StdoutAddr : String
  StderrAddr : String
deriving DecidableEq

/-- The `GRPCServer` structure, lines 26-48.  `Plugins` is the Go map
`map[string]Plugin` together with the iteration order a `range` traversal
uses; `server` is the unexported field holding the lazily created gRPC
server (`nil` ≈ `none` before it is assigned). -/
structure GRPCServer where
  Plugins : List (String × Plugin)
  Server : List grpc.ServerOption → grpc.Server
  TLS : Option tls.Config
  DoneCh : GoChan
  Stdout : IOReader
  Stderr : IOReader
  config : GRPCServerConfig
  server : Option grpc.Server

/-- Model of `DefaultGRPCServer`, lines 17-19: the default factory, `grpc.NewServer`
with exactly the given options. -/
def DefaultGRPCServer (opts : List grpc.ServerOption) : grpc.Server :=
  grpc.NewServer opts

/-- The option list `Init` builds on lines 60-63: empty when `TLS` is `nil`,
otherwise the single element `grpc.Creds(credentials.NewTLS(s.TLS))`.  This
computation is total: no error is possible.  (The TLS check on lines 55-57 has
its body commented out in the source and has no effect.) -/
def serverOpts (t : Option tls.Config) : List grpc.ServerOption :=
  match t with
  | none => []
  | some c => [grpc.ServerOption.Creds (credentials.NewTLS c)]

/-- Lowercase hexadecimal digit character for `m < 16` (Go `"0123456789abcdef"[m]`). -/
def hexDig (m : Nat) : Char :=
  if m < 10 then Char.ofNat (48 + m) else Char.ofNat (87 + m)

/-- Model of Go `unicode.IsPrint`, exact on the ASCII range (printable =
`0x20 ..= 0x7e`).  For non-ASCII runes Go consults its Unicode tables; the
bootstrap only ever quotes plugin names supplied by callers, and no theorem
below depends on the non-ASCII side of this predicate, which is abstracted
as `true`. -/
def unicodeIsPrint (c : Char) : Bool :=
  if c.toNat < 0x80 then decide (0x20 ≤ c.toNat ∧ c.toNat ≤ 0x7e) else true

/-- Quoting of one rune by Go `strconv.Quote` (which implements the `%q` verb
used in the error messages of `Init`): `"` and `\` get a backslash, printable
runes are kept literally, the seven named control escapes are used where they
exist, and remaining runes are hex-escaped. -/
def quoteChar (c : Char) : List Char :=
  if c = '"' ∨ c = '\\' then ['\\', c]
  else if unicodeIsPrint c then [c]
  else if c.toNat = 0x07 then ['\\', 'a']
  else if c.toNat = 0x08 then ['\\', 'b']
  else if c.toNat = 0x0c then ['\\', 'f']
  else if c.toNat = 0x0a then ['\\', 'n']
  else if c.toNat = 0x0d then ['\\', 'r']
  else if c.toNat = 0x09 then ['\\', 't']
  else if c.toNat = 0x0b then ['\\', 'v']
  else if c.toNat < 0x20 then
    ['\\', 'x', hexDig (c.toNat / 16), hexDig (c.toNat % 16)]
  else if c.toNat < 0x10000 then
    ['\\', 'u', hexDig (c.toNat / 4096 % 16), hexDig (c.toNat / 256 % 16),
     hexDig (c.toNat / 16 % 16), hexDig (c.toNat % 16)]
  else
    ['\\', 'U', hexDig (c.toNat / 268435456 % 16), hexDig (c.toNat / 16777216 % 16),
     hexDig (c.toNat / 1048576 % 16), hexDig (c.toNat / 65536 % 16),
     hexDig (c.toNat / 4096 % 16), hexDig (c.toNat / 256 % 16),
     hexDig (c.toNat / 16 % 16), hexDig (c.toNat % 16)]

/-- Model of Go `strconv.Quote` / the `%q` formatting verb: a double-quoted
Go string literal for `s`. -/
def goQuote (s : String) : String :=
  String.mk ('"' :: (s.data.flatMap quoteChar ++ ['"']))

/-- The plugin registration loop of `Init`, lines 67-76: for each `(k, raw)`
entry in iteration order, type-assert `raw.(GRPCPlugin)` and call its attach
method on the server; stop at the first failure with the exact error message
the source formats (including its misspellings), returning the server as
mutated so far. -/
def registerPlugins : grpc.Server → List (String × Plugin) → Option String × grpc.Server
  | srv, [] => (none, srv)
  | srv, (k, raw) :: rest =>
    match raw with
    | Plugin.notGrpcCompatible =>
      (some (goQuote k ++ " is not a GRPC-compatibile plugin"), srv)
    | Plugin.grpcCompatible p =>
      match GRPCPlugin.GRPCServerAttach p srv with
      | (some err, srv') =>
        (some ("error registring " ++ goQuote k ++ ": " ++ err), srv')
      | (none, srv') => registerPlugins srv' rest

/-- Model of `GRPCServer.Init`, lines 51-79: build the option list from `TLS`, call the
`Server` factory and assign the result to the `server` field, then register
every plugin in iteration order, failing fast.  Returns the Go `error` and the
updated receiver. -/
def GRPCServer.Init (s : GRPCServer) : Option String × GRPCServer :=
  let srv0 := s.Server (serverOpts s.TLS)
  let res := registerPlugins srv0 s.Plugins
  (res.1, { s with server := some res.2 })

/-- Encoding of one rune of a string by Go `encoding/json` (an encoder
obtained from `json.NewEncoder`, hence with HTML escaping on): ASCII runes
outside `htmlSafeSet` (controls, `"`, `\`, `<`, `>`, `&`) are escaped — by
name for `\`, `"`, newline, carriage return and tab, as `\u00XX` otherwise —
and of the non-ASCII runes exactly U+2028 and U+2029 are escaped. -/
def escapeChar (c : Char) : List Char :=
  if c.toNat < 0x80 then
    if 0x20 ≤ c.toNat ∧ ¬(c = '"' ∨ c = '\\' ∨ c = '<' ∨ c = '>' ∨ c = '&') then [c]
    else if c = '\\' then ['\\', '\\']
    else if c = '"' then ['\\', '"']
    else if c = '\n' then ['\\', 'n']
    else if c = '\r' then ['\\', 'r']
    else if c = '\t' then ['\\', 't']
    else ['\\', 'u', '0', '0', hexDig (c.toNat / 16), hexDig (c.toNat % 16)]
  else if c.toNat = 0x2028 then ['\\', 'u', '2', '0', '2', '8']
  else if c.toNat = 0x2029 then ['\\', 'u', '2', '0', '2', '9']
  else [c]

/-- JSON escaping of a whole character sequence. -/
def escChars (l : List Char) : List Char :=
  l.flatMap escapeChar

/-- Go `encoding/json` rendering of a string value: `"` + escaped runes + `"`. -/
def jsonQuote (s : String) : List Char :=
  '"' :: (escChars s.data ++ ['"'])

/-- A Go value as seen by `encoding/json`, restricted to the shapes relevant
here: strings (which always marshal), struct values (an ordered list of
JSON-tagged fields), and values of unsupported types such as `func` or `chan`
(whose marshalling is the error case of the encoder). -/
inductive GoValue where
  | str (s : String)
  | structV (fields : List (String × GoValue))
  | unsupported (typeName : String)

mutual

/-- Model of Go `json.Marshal` on a `GoValue`: strings marshal to their quoted
form, structs to `\x7bfield:value,...\x7d` in declaration order, and
unsupported types produce the encoder's error. -/
def GoValue.marshal : GoValue → Except String (List Char)
  | GoValue.str s => Except.ok (jsonQuote s)
  | GoValue.structV fields =>
    match marshalFields fields with
    | Except.error e => Except.error e
    | Except.ok parts =>
      Except.ok ('\x7b' :: (List.intercalate [','] parts ++ ['\x7d']))
  | GoValue.unsupported t => Except.error ("json: unsupported type: " ++ t)

/-- Marshal the fields of a struct, each as `"name":value`, failing on the
first field whose value fails to marshal. -/
def marshalFields : List (String × GoValue) → Except String (List (List Char))
  | [] => Except.ok []
  | (n, v) :: rest =>
    match GoValue.marshal v with
    | Except.error e => Except.error e
    | Except.ok mv =>
      match marshalFields rest with
      | Except.error e => Except.error e
      | Except.ok mrest => Except.ok ((jsonQuote n ++ ':' :: mv) :: mrest)

end

/-- The `GoValue` that `encoding/json` reflection sees when handed a
`GRPCServerConfig`: a struct of two string fields tagged `stdout_addr` and
`stderr_addr` (lines 107-110). -/
def GRPCServerConfig.reflect (c : GRPCServerConfig) : GoValue :=
  GoValue.structV [("stdout_addr", GoValue.str c.StdoutAddr),
                   ("stderr_addr", GoValue.str c.StderrAddr)]

/-- Model of `GRPCServer.Config`, lines 82-95: JSON-encode the `config` field into a
buffer (`json.Encoder.Encode` appends a trailing newline) and return the
buffer's contents; the receiver is not modified.  A `none` result models the
`panic(err)` branch taken if the encoder were to fail. -/
def GRPCServer.Config (s : GRPCServer) : Option (String × GRPCServer) :=
  match GoValue.marshal (GRPCServerConfig.reflect s.config) with
  | Except.error _ => none
  | Except.ok cs => some (String.mk (cs ++ ['\n']), s)

/-- Program counter of one `Serve` call (lines 97-103): before the `go`
statement, blocked on `<-s.DoneCh`, or returned. -/
inductive ServePC where
  | started
  | waiting
  | done
deriving DecidableEq

/-- State of the small transition system for `GRPCServer.Serve`, lines 97-103:
the caller's program counter, whether the asynchronous accept loop
(`go s.server.Serve(lis)`) has been started, and whether `DoneCh` has been
closed by the external controller. -/
structure ServeExec where
  pc : ServePC
  accepting : Bool
  doneClosed : Bool
deriving DecidableEq

/-- Transitions of one `Serve` call: `spawn` is the `go` statement followed by
reaching the channel receive, `close` is the external controller closing
`DoneCh` (possible at any time, once), and `recv` is the receive completing —
which requires the channel to be closed and is the only step that lets the
caller return.  `Serve` has no error return: there is no failure transition. -/
inductive ServeStep : ServeExec → ServeExec → Prop where
  | spawn (a d : Bool) : ServeStep ⟨ServePC.started, a, d⟩ ⟨ServePC.waiting, true, d⟩
  | close (pc : ServePC) (a : Bool) : ServeStep ⟨pc, a, false⟩ ⟨pc, a, true⟩
  | recv (a : Bool) : ServeStep ⟨ServePC.waiting, a, true⟩ ⟨ServePC.done, a, true⟩

/-- States reachable during one `Serve` call, starting before the `go`
statement with the accept loop not yet started and `DoneCh` open. -/
inductive ServeReach : ServeExec → Prop where
  | init : ServeReach ⟨ServePC.started, false, false⟩
  | step {t u : ServeExec} : ServeReach t → ServeStep t u → ServeReach u

/-- Numeric value of a hexadecimal digit character, if it is one. -/
def hexVal (c : Char) : Option Nat :=
  if 48 ≤ c.toNat ∧ c.toNat ≤ 57 then some (c.toNat - 48)
  else if 97 ≤ c.toNat ∧ c.toNat ≤ 102 then some (c.toNat - 87)
  else if 65 ≤ c.toNat ∧ c.toNat ≤ 70 then some (c.toNat - 55)
  else none

/-- Value of four hexadecimal digits (the `XXXX` of a `\uXXXX` escape). -/
def hex4 (a b c d : Char) : Option Nat :=
  match hexVal a, hexVal b, hexVal c, hexVal d with
  | some va, some vb, some vc, some vd => some (((va * 16 + vb) * 16 + vc) * 16 + vd)
  | _, _, _, _ => none

/-- The character denoted by a single-character JSON string escape. -/
def unescapeChar (e : Char) : Option Char :=
  if e = '"' then some '"'
  else if e = '\\' then some '\\'
  else if e = '/' then some '/'
  else if e = 'b' then some (Char.ofNat 0x08)
  else if e = 'f' then some (Char.ofNat 0x0c)
  else if e = 'n' then some '\n'
  else if e = 'r' then some '\r'
  else if e = 't' then some '\t'
  else none

/-- Modelled from the spec: the supervising process parses the emitted
handshake record as standard JSON; this is the body of a JSON string read
until the closing `"`, resolving backslash escapes, returning the decoded
characters and the remainder after the closing quote. -/
def parseStringBody : List Char → Option (List Char × List Char)
  | [] => none
  | c :: rest =>
    if c = '"' then some ([], rest)
    else if c = '\\' then
      match rest with
      | [] => none
      | e :: rest2 =>
        if e = 'u' then
          match rest2 with
          | a :: b :: c2 :: d :: rest3 =>
            match hex4 a b c2 d with
            | none => none
            | some n =>
              if _h : n.isValidChar then
                match parseStringBody rest3 with
                | none => none
                | some (sv, r) => some (Char.ofNat n :: sv, r)
              else none
          | _ => none
        else
          match unescapeChar e with
          | none => none
          | some u =>
            match parseStringBody rest2 with
            | none => none
            | some (sv, r) => some (u :: sv, r)
    else
      match parseStringBody rest with
      | none => none
      | some (sv, r) => some (c :: sv, r)

/-- Modelled from the spec: a JSON string value, i.e. a leading `"` followed
by a string body. -/
def parseJSONString (l : List Char) : Option (List Char × List Char) :=
  match l with
  | [] => none
  | c :: rest => if c = '"' then parseStringBody rest else none

/-- Consume an expected literal character sequence, returning the remainder. -/
def dropLiteral : List Char → List Char → Option (List Char)
  | [], l => some l
  | _ :: _, [] => none
  | p :: ps, c :: cs => if c = p then dropLiteral ps cs else none

/-- Modelled from the spec: the supervising process's parse of the emitted
handshake line back into a structured `\x7bstdout_addr, stderr_addr\x7d`
record — the two JSON string values in the object produced by `Config`,
with an optional trailing newline. -/
def parseConfig (out : String) : Option GRPCServerConfig :=
  match dropLiteral ("\x7b\"stdout_addr\":").data out.data with
  | none => none
  | some l1 =>
    match parseJSONString l1 with
    | none => none
    | some (v1, l2) =>
      match dropLiteral (",\"stderr_addr\":").data l2 with
      | none => none
      | some l3 =>
        match parseJSONString l3 with
        | none => none
        | some (v2, l4) =>
          match dropLiteral ("\x7d").data l4 with
          | none => none
          | some l5 =>
            if l5 = ['\n'] ∨ l5 = [] then
              some ⟨String.mk v1, String.mk v2⟩
            else none

/-- The exact character sequence `json.Marshal` produces for a
`GRPCServerConfig` value: the two fields in declaration order with their JSON
tags, values JSON-escaped. -/
def configLineChars (c : GRPCServerConfig) : List Char :=
  "\x7b\"stdout_addr\":".data ++ jsonQuote c.StdoutAddr ++
    ",\"stderr_addr\":".data ++ jsonQuote c.StderrAddr ++ "\x7d".data

/-- A plugin map entry that is GRPC-compatible and whose attach succeeds,
registering service surface `e.2` under map key `e.1`. -/
def goodEntry (e : String × String) : String × Plugin :=
  (e.1, Plugin.grpcCompatible ⟨e.2, none⟩)

/-- A concrete bootstrap value for exercising the theorems: given plugin map
and TLS configuration, with the default factory, fixed handles and fixed
relay addresses, before `Init` (`server` is nil). -/
def mkBootstrap (plugins : List (String × Plugin)) (t : Option tls.Config) : GRPCServer :=
  ⟨plugins, DefaultGRPCServer, t, ⟨0⟩, ⟨1⟩, ⟨2⟩, ⟨"127.0.0.1:1234", "127.0.0.1:5678"⟩, none⟩

/-- Rewriting a character's `toNat` value back into the character itself. -/
theorem char_eq_of_toNat_eq {c : Char} {n : Nat} (h : c.toNat = n) : c = Char.ofNat n := by
  rw [← Char.ofNat_toNat c, h]

/-- The hexadecimal digit characters emitted by `hexDig` decode to their
values. -/
theorem hexVal_hexDig {m : Nat} (h : m < 16) : hexVal (hexDig m) = some m := by
  interval_cases m <;> decide

/-- A string body beginning with an unescaped `"` parses as empty. -/
theorem psb_quote (rest : List Char) : parseStringBody ('"' :: rest) = some ([], rest) := by
  rw [parseStringBody.eq_def]
  simp

/-- A string body beginning with an ordinary character keeps it. -/
theorem psb_safe {c : Char} (h1 : c ≠ '"') (h2 : c ≠ '\\') (rest : List Char) :
    parseStringBody (c :: rest) =
      Option.map (fun p => (c :: p.1, p.2)) (parseStringBody rest) := by
  rw [parseStringBody.eq_def]
  simp only []
  rw [if_neg h1, if_neg h2]
  cases parseStringBody rest with
  | none => rfl
  | some p => cases p; rfl

/-- A string body beginning with a single-character escape decodes it. -/
theorem psb_named {e u : Char} (he : unescapeChar e = some u) (hne : e ≠ 'u')
    (rest : List Char) :
    parseStringBody ('\\' :: e :: rest) =
      Option.map (fun p => (u :: p.1, p.2)) (parseStringBody rest) := by
  rw [parseStringBody.eq_def]
  simp only [reduceCtorEq, reduceIte]
  rw [if_neg hne, he]
  cases parseStringBody rest with
  | none => rfl
  | some p => cases p; rfl

/-- A string body beginning with a `\uXXXX` escape decodes the code point. -/
theorem psb_uescape {a b c2 d : Char} {n : Nat} (hhex : hex4 a b c2 d = some n)
    (hv : n.isValidChar) (rest : List Char) :
    parseStringBody ('\\' :: 'u' :: a :: b :: c2 :: d :: rest) =
      Option.map (fun p => (Char.ofNat n :: p.1, p.2)) (parseStringBody rest) := by
  rw [parseStringBody.eq_def]
  simp only [reduceCtorEq, reduceIte]
  rw [hhex]
  simp only []
  rw [dif_pos hv]
  cases parseStringBody rest with
  | none => rfl
  | some p => cases p; rfl

/-- Round trip for one character: whatever `escapeChar` emits, the JSON
string parser decodes back to that character. -/
theorem escapeChar_roundtrip (c : Char) (rest : List Char) :
    parseStringBody (escapeChar c ++ rest) =
      Option.map (fun p => (c :: p.1, p.2)) (parseStringBody rest) := by
  rw [escapeChar]
  by_cases hA : c.toNat < 0x80
  · rw [if_pos hA]
    by_cases hS : 0x20 ≤ c.toNat ∧ ¬(c = '"' ∨ c = '\\' ∨ c = '<' ∨ c = '>' ∨ c = '&')
    · rw [if_pos hS]
      have h1 : c ≠ '"' := fun h => hS.2 (Or.inl h)
      have h2 : c ≠ '\\' := fun h => hS.2 (Or.inr (Or.inl h))
      simpa using psb_safe h1 h2 rest
    · rw [if_neg hS]
      by_cases hbs : c = '\\'
      · subst hbs
        rw [if_pos rfl]
        simpa using psb_named (show unescapeChar '\\' = some '\\' from rfl)
          (by decide) rest
      · rw [if_neg hbs]
        by_cases hq : c = '"'
        · subst hq
          rw [if_pos rfl]
          simpa using psb_named (show unescapeChar '"' = some '"' from rfl)
            (by decide) rest
        · rw [if_neg hq]
          by_cases hn : c = '\n'
          · subst hn
            rw [if_pos rfl]
            simpa using psb_named (show unescapeChar 'n' = some '\n' from rfl)
              (by decide) rest
          · rw [if_neg hn]
            by_cases hr : c = '\r'
            · subst hr
              rw [if_pos rfl]
              simpa using psb_named (show unescapeChar 'r' = some '\r' from rfl)
                (by decide) rest
            · rw [if_neg hr]
              by_cases ht : c = '\t'
              · subst ht
                rw [if_pos rfl]
                simpa using psb_named (show unescapeChar 't' = some '\t' from rfl)
                  (by decide) rest
              · rw [if_neg ht]
                have hd1 : c.toNat / 16 < 16 := by omega
                have hd2 : c.toNat % 16 < 16 := by omega
                have hhex : hex4 '0' '0' (hexDig (c.toNat / 16)) (hexDig (c.toNat % 16))
                    = some c.toNat := by
                  rw [hex4]
                  rw [hexVal_hexDig hd1, hexVal_hexDig hd2]
                  simp only [show hexVal '0' = some 0 from rfl]
                  have : ((0 * 16 + 0) * 16 + c.toNat / 16) * 16 + c.toNat % 16
                      = c.toNat := by omega
                  rw [this]
                have := psb_uescape hhex c.valid rest
                rw [Char.ofNat_toNat] at this
                simpa using this
  · rw [if_neg hA]
    by_cases h28 : c.toNat = 0x2028
    · rw [if_pos h28]
      have hc : c = Char.ofNat 0x2028 := char_eq_of_toNat_eq h28
      subst hc
      have := psb_uescape (show hex4 '2' '0' '2' '8' = some 0x2028 from by decide)
        (show Nat.isValidChar 0x2028 from by decide) rest
      simpa using this
    · rw [if_neg h28]
      by_cases h29 : c.toNat = 0x2029
      · rw [if_pos h29]
        have hc : c = Char.ofNat 0x2029 := char_eq_of_toNat_eq h29
        subst hc
        have := psb_uescape (show hex4 '2' '0' '2' '9' = some 0x2029 from by decide)
          (show Nat.isValidChar 0x2029 from by decide) rest
        simpa using this
      · rw [if_neg h29]
        have h1 : c ≠ '"' := by
          intro hc; subst hc; exact hA (by decide)
        have h2 : c ≠ '\\' := by
          intro hc; subst hc; exact hA (by decide)
        simpa using psb_safe h1 h2 rest

/-- Round trip for a whole escaped character sequence followed by the closing
quote. -/
theorem escChars_roundtrip (l rest : List Char) :
    parseStringBody (escChars l ++ '"' :: rest) = some (l, rest) := by
  induction l with
  | nil => simpa [escChars] using psb_quote rest
  | cons c l ih =>
    rw [escChars, List.flatMap_cons, List.append_assoc]
    rw [show l.flatMap escapeChar = escChars l from rfl]
    rw [escapeChar_roundtrip c (escChars l ++ '"' :: rest), ih]
    rfl

/-- Parsing a Go-JSON-rendered string value recovers the original string. -/
theorem jsonQuote_parse (s : String) (rest : List Char) :
    parseJSONString (jsonQuote s ++ rest) = some (s.data, rest) := by
  rw [jsonQuote, parseJSONString.eq_def]
  simp only [List.cons_append, List.append_assoc, List.cons_append, List.nil_append]
  rw [if_true]
  exact escChars_roundtrip s.data rest

/-- Consuming an expected literal off the front of a list succeeds. -/
theorem dropLiteral_self (p l : List Char) : dropLiteral p (p ++ l) = some l := by
  induction p with
  | nil => rfl
  | cons c p ih => rw [List.cons_append, dropLiteral, if_pos rfl]; exact ih

/-- Marshalling a `GRPCServerConfig` always succeeds and yields exactly the
`configLineChars` sequence. -/
theorem marshal_reflect (c : GRPCServerConfig) :
    GoValue.marshal (GRPCServerConfig.reflect c) = Except.ok (configLineChars c) := by
  show Except.ok _ = _
  rw [configLineChars]
  simp only [jsonQuote, List.intercalate]
  rw [show escChars ['s','t','d','o','u','t','_','a','d','d','r']
        = ['s','t','d','o','u','t','_','a','d','d','r'] from rfl,
      show escChars ['s','t','d','e','r','r','_','a','d','d','r']
        = ['s','t','d','e','r','r','_','a','d','d','r'] from rfl]
  simp

/-- Closed form of `Config`: it always returns the encoded line (with the
encoder's trailing newline) and the unchanged receiver. -/
theorem Config_eq (s : GRPCServer) :
    GRPCServer.Config s = some (String.mk (configLineChars s.config ++ ['\n']), s) := by
  rw [GRPCServer.Config, marshal_reflect]

/-- Parsing the emitted line recovers the original configuration record. -/
theorem parseConfig_configLine (c : GRPCServerConfig) :
    parseConfig (String.mk (configLineChars c ++ ['\n'])) = some c := by
  have hshape : configLineChars c ++ ['\n']
      = "\x7b\"stdout_addr\":".data ++ (jsonQuote c.StdoutAddr ++
        (",\"stderr_addr\":".data ++ (jsonQuote c.StderrAddr ++
          ("\x7d".data ++ ['\n'])))) := by
    simp [configLineChars]
  rw [parseConfig]
  rw [show (String.mk (configLineChars c ++ ['\n'])).data = configLineChars c ++ ['\n'] from rfl]
  rw [hshape, dropLiteral_self]
  simp only []
  rw [jsonQuote_parse]
  simp only []
  rw [dropLiteral_self]
  simp only []
  rw [jsonQuote_parse]
  simp only []
  rw [dropLiteral_self]
  simp

/-- Running the registration loop over a prefix of all-good entries registers
exactly those entries' surfaces, in order, and continues with the rest. -/
theorem registerPlugins_good_prefix (entries : List (String × String)) :
    ∀ (srv : grpc.Server) (rest : List (String × Plugin)),
      registerPlugins srv (entries.map goodEntry ++ rest) =
        registerPlugins { srv with services := srv.services ++ entries.map Prod.snd } rest := by
  induction entries with
  | nil => intro srv rest; simp
  | cons e entries ih =>
    intro srv rest
    rw [List.map_cons, List.cons_append, registerPlugins.eq_def, goodEntry]
    simp only [GRPCPlugin.GRPCServerAttach]
    rw [ih]
    simp [List.append_assoc]

/-- The registration loop never changes the options the server was
constructed with. -/
theorem registerPlugins_opts (l : List (String × Plugin)) :
    ∀ srv : grpc.Server, (registerPlugins srv l).2.opts = srv.opts := by
  induction l with
  | nil => intro srv; rfl
  | cons kv rest ih =>
    intro srv
    obtain ⟨k, raw⟩ := kv
    rw [registerPlugins.eq_def]
    simp only []
    cases raw with
    | notGrpcCompatible => rfl
    | grpcCompatible p =>
      cases hp : p.attachErr with
      | some e => simp [GRPCPlugin.GRPCServerAttach, hp]
      | none =>
        simp only [GRPCPlugin.GRPCServerAttach, hp]
        exact ih _

/-- Hitting an offending entry stops the loop at once: the error message
embeds the quoted entry name and the server is exactly as registered so far. -/
theorem registerPlugins_offending (srv : grpc.Server) (k : String) (bad : Plugin)
    (post : List (String × Plugin))
    (hbad : bad = Plugin.notGrpcCompatible ∨
      ∃ gp e, bad = Plugin.grpcCompatible gp ∧ gp.attachErr = some e) :
    ∃ msg, registerPlugins srv ((k, bad) :: post) = (some msg, srv) ∧
      (goQuote k).data <:+: msg.data := by
  rcases hbad with hbad | ⟨gp, e, hbad, herr⟩
  · subst hbad
    refine ⟨goQuote k ++ " is not a GRPC-compatibile plugin", ?_, ?_⟩
    · rw [registerPlugins.eq_def]
    · rw [String.data_append]
      exact ⟨[], " is not a GRPC-compatibile plugin".data, by simp⟩
  · subst hbad
    refine ⟨"error registring " ++ goQuote k ++ ": " ++ e, ?_, ?_⟩
    · rw [registerPlugins.eq_def]
      simp only [GRPCPlugin.GRPCServerAttach, herr]
    · rw [String.data_append, String.data_append, String.data_append]
      exact ⟨"error registring ".data, ": ".data ++ e.data, by simp⟩

/-- Characters emitted as hexadecimal digits are printable (at or above the
space character). -/
theorem hexDig_ge_space {m : Nat} (h : m < 16) : 0x20 ≤ (hexDig m).toNat := by
  interval_cases m <;> decide

/-- Every character the JSON escaper emits is at or above the space
character; in particular no control character (and no newline) appears. -/
theorem escapeChar_ge_space (c : Char) : ∀ d ∈ escapeChar c, 0x20 ≤ d.toNat := by
  intro d hd
  rw [escapeChar] at hd
  by_cases hA : c.toNat < 0x80
  · rw [if_pos hA] at hd
    by_cases hS : 0x20 ≤ c.toNat ∧ ¬(c = '"' ∨ c = '\\' ∨ c = '<' ∨ c = '>' ∨ c = '&')
    · rw [if_pos hS] at hd
      rw [List.mem_singleton] at hd
      subst hd
      exact hS.1
    · rw [if_neg hS] at hd
      by_cases hbs : c = '\\'
      · rw [if_pos hbs] at hd
        simp only [List.mem_cons, List.not_mem_nil, or_false] at hd
        rcases hd with hd | hd <;> (subst hd; decide)
      · rw [if_neg hbs] at hd
        by_cases hq : c = '"'
        · rw [if_pos hq] at hd
          simp only [List.mem_cons, List.not_mem_nil, or_false] at hd
          rcases hd with hd | hd <;> (subst hd; decide)
        · rw [if_neg hq] at hd
          by_cases hn : c = '\n'
          · rw [if_pos hn] at hd
            simp only [List.mem_cons, List.not_mem_nil, or_false] at hd
            rcases hd with hd | hd <;> (subst hd; decide)
          · rw [if_neg hn] at hd
            by_cases hr : c = '\r'
            · rw [if_pos hr] at hd
              simp only [List.mem_cons, List.not_mem_nil, or_false] at hd
              rcases hd with hd | hd <;> (subst hd; decide)
            · rw [if_neg hr] at hd
              by_cases ht : c = '\t'
              · rw [if_pos ht] at hd
                simp only [List.mem_cons, List.not_mem_nil, or_false] at hd
                rcases hd with hd | hd <;> (subst hd; decide)
              · rw [if_neg ht] at hd
                simp only [List.mem_cons, List.not_mem_nil, or_false] at hd
                rcases hd with hd | hd | hd | hd | hd | hd
                · subst hd; decide
                · subst hd; decide
                · subst hd; decide
                · subst hd; decide
                · subst hd; exact hexDig_ge_space (by omega)
                · subst hd; exact hexDig_ge_space (by omega)
  · rw [if_neg hA] at hd
    by_cases h28 : c.toNat = 0x2028
    · rw [if_pos h28] at hd
      simp only [List.mem_cons, List.not_mem_nil, or_false] at hd
      rcases hd with hd | hd | hd | hd | hd | hd <;> (subst hd; decide)
    · rw [if_neg h28] at hd
      by_cases h29 : c.toNat = 0x2029
      · rw [if_pos h29] at hd
        simp only [List.mem_cons, List.not_mem_nil, or_false] at hd
        rcases hd with hd | hd | hd | hd | hd | hd <;> (subst hd; decide)
      · rw [if_neg h29] at hd
        rw [List.mem_singleton] at hd
        subst hd
        omega

/-- Every character of a JSON-rendered string value is at or above the space
character. -/
theorem jsonQuote_ge_space (s : String) : ∀ d ∈ jsonQuote s, 0x20 ≤ d.toNat := by
  intro d hd
  rw [jsonQuote] at hd
  rcases List.mem_cons.1 hd with hd | hd
  · subst hd; decide
  · rcases List.mem_append.1 hd with hd | hd
    · rw [escChars] at hd
      obtain ⟨c, _, hc⟩ := List.mem_flatMap.1 hd
      exact escapeChar_ge_space c d hc
    · rw [List.mem_singleton] at hd
      subst hd; decide

/-- The emitted configuration line contains no newline character before the
trailing one. -/
theorem configLineChars_no_newline (c : GRPCServerConfig) :
    ∀ ch ∈ configLineChars c, ch ≠ '\n' := by
  intro ch hch
  have hge : 0x20 ≤ ch.toNat := by
    rw [configLineChars] at hch
    simp only [List.mem_append] at hch
    rcases hch with ((((hch | hch) | hch) | hch) | hch)
    · exact (by decide : ∀ x ∈ "\x7b\"stdout_addr\":".data, 0x20 ≤ Char.toNat x) ch hch
    · exact jsonQuote_ge_space _ ch hch
    · exact (by decide : ∀ x ∈ ",\"stderr_addr\":".data, 0x20 ≤ Char.toNat x) ch hch
    · exact jsonQuote_ge_space _ ch hch
    · exact (by decide : ∀ x ∈ "\x7d".data, 0x20 ≤ Char.toNat x) ch hch
  intro heq
  subst heq
  revert hge
  decide

/-- All states reachable during a `Serve` call satisfy: whenever the caller is
blocked or has returned the accept loop has been started, and whenever the
caller has returned the done signal has been closed. -/
theorem serveReach_invariant (t : ServeExec) (h : ServeReach t) :
    ((t.pc = ServePC.waiting ∨ t.pc = ServePC.done) → t.accepting = true) ∧
    (t.pc = ServePC.done → t.doneClosed = true) := by
  induction h with
  | init =>
    exact ⟨fun hpc => by rcases hpc with h | h <;> exact absurd h (by decide),
           fun hpc => absurd hpc (by decide)⟩
  | step _ hstep ih =>
    cases hstep with
    | spawn a d => exact ⟨fun _ => rfl, fun hpc => by simp at hpc⟩
    | close pc a =>
      exact ⟨fun hpc => ih.1 hpc, fun _ => rfl⟩
    | recv a =>
      exact ⟨fun _ => ih.1 (Or.inl rfl), fun _ => rfl⟩

/-- C1, counterexample to the claim as stated: for the plugins map whose single
(hence first, hence offending) entry is named by the one-character string
`"\n"` and is not GRPC-compatible, `Init` fails — but the error message
contains only the `%q`-quoted form of the name (backslash, `n`), not the raw
name: the newline character itself does not occur in the message, so the
message does not contain the entry's name. -/
theorem init_error_omits_raw_name :
    (GRPCServer.Init (mkBootstrap [("\n", Plugin.notGrpcCompatible)] none)).1 =
      some "\"\\n\" is not a GRPC-compatibile plugin" ∧
    ¬ ("\n".data <:+: "\"\\n\" is not a GRPC-compatibile plugin".data) := by
  constructor
  · rfl
  · decide

/-- C1 (amended): for every plugins map whose iteration order is some all-good
prefix followed by an offending entry (one that is not GRPC-compatible, or
whose attach operation returns an error), `Init` returns an error whose
message contains the Go `%q`-quotation of that entry's name (and hence the
raw name whenever quoting leaves it unchanged), and no entry iterated after
the offending one is registered: the server holds exactly the factory's
services plus the surfaces of the good prefix. -/
theorem init_fail_fast (s : GRPCServer) (pre : List (String × String)) (k : String)
    (bad : Plugin) (post : List (String × Plugin))
    (hplug : s.Plugins = pre.map goodEntry ++ (k, bad) :: post)
    (hbad : bad = Plugin.notGrpcCompatible ∨
      ∃ gp e, bad = Plugin.grpcCompatible gp ∧ gp.attachErr = some e) :
    ∃ msg, (GRPCServer.Init s).1 = some msg ∧ (goQuote k).data <:+: msg.data ∧
      (GRPCServer.Init s).2.server =
        some { s.Server (serverOpts s.TLS) with
               services := (s.Server (serverOpts s.TLS)).services ++ pre.map Prod.snd } := by
  obtain ⟨msg, hreg, hinf⟩ := registerPlugins_offending
    { s.Server (serverOpts s.TLS) with
      services := (s.Server (serverOpts s.TLS)).services ++ pre.map Prod.snd }
    k bad post hbad
  have hrun : registerPlugins (s.Server (serverOpts s.TLS)) s.Plugins =
      (some msg,
       { s.Server (serverOpts s.TLS) with
         services := (s.Server (serverOpts s.TLS)).services ++ pre.map Prod.snd }) := by
    rw [hplug, registerPlugins_good_prefix, hreg]
  exact ⟨msg, by simp [GRPCServer.Init, hrun], hinf, by simp [GRPCServer.Init, hrun]⟩

/-- C1, witness: a three-entry map (good, offending, good) makes `Init` fail
with a message embedding `"bad"` while only `svcA` is registered. -/
theorem init_fail_fast_witness :
    ∃ msg,
      (GRPCServer.Init (mkBootstrap [("alpha", Plugin.grpcCompatible ⟨"svcA", none⟩),
        ("bad", Plugin.notGrpcCompatible),
        ("omega", Plugin.grpcCompatible ⟨"svcO", none⟩)] none)).1 = some msg ∧
      (goQuote "bad").data <:+: msg.data ∧
      (GRPCServer.Init (mkBootstrap [("alpha", Plugin.grpcCompatible ⟨"svcA", none⟩),
        ("bad", Plugin.notGrpcCompatible),
        ("omega", Plugin.grpcCompatible ⟨"svcO", none⟩)] none)).2.server =
        some { (mkBootstrap [("alpha", Plugin.grpcCompatible ⟨"svcA", none⟩),
                 ("bad", Plugin.notGrpcCompatible),
                 ("omega", Plugin.grpcCompatible ⟨"svcO", none⟩)] none).Server
                 (serverOpts (mkBootstrap [("alpha", Plugin.grpcCompatible ⟨"svcA", none⟩),
                   ("bad", Plugin.notGrpcCompatible),
                   ("omega", Plugin.grpcCompatible ⟨"svcO", none⟩)] none).TLS) with
               services := ((mkBootstrap [("alpha", Plugin.grpcCompatible ⟨"svcA", none⟩),
                 ("bad", Plugin.notGrpcCompatible),
                 ("omega", Plugin.grpcCompatible ⟨"svcO", none⟩)] none).Server
                 (serverOpts (mkBootstrap [("alpha", Plugin.grpcCompatible ⟨"svcA", none⟩),
                   ("bad", Plugin.notGrpcCompatible),
                   ("omega", Plugin.grpcCompatible ⟨"svcO", none⟩)] none).TLS)).services ++
                 ([("alpha", "svcA")].map Prod.snd) } :=
  init_fail_fast _ [("alpha", "svcA")] "bad" Plugin.notGrpcCompatible
    [("omega", Plugin.grpcCompatible ⟨"svcO", none⟩)] rfl (Or.inl rfl)

/-- C2: for every plugins map in which every entry is GRPC-compatible and
every entry's attach succeeds, `Init` returns success (nil error) and the
constructed server carries exactly one registered service surface per plugin
entry, in iteration order — the factory's services plus one surface per
entry, the count matching the size of the map. -/
theorem init_all_good (s : GRPCServer) (entries : List (String × String))
    (hplug : s.Plugins = entries.map goodEntry) :
    (GRPCServer.Init s).1 = none ∧
    (GRPCServer.Init s).2.server =
      some { s.Server (serverOpts s.TLS) with
             services := (s.Server (serverOpts s.TLS)).services ++ entries.map Prod.snd } ∧
    (entries.map Prod.snd).length = s.Plugins.length := by
  have hrun : registerPlugins (s.Server (serverOpts s.TLS)) s.Plugins =
      (none,
       { s.Server (serverOpts s.TLS) with
         services := (s.Server (serverOpts s.TLS)).services ++ entries.map Prod.snd }) := by
    have := registerPlugins_good_prefix entries (s.Server (serverOpts s.TLS)) []
    rw [List.append_nil] at this
    rw [hplug, this, registerPlugins.eq_def]
  refine ⟨by simp [GRPCServer.Init, hrun], by simp [GRPCServer.Init, hrun], ?_⟩
  rw [hplug]
  simp

/-- C2, witness: a two-entry all-good map initialises successfully with two
registered surfaces. -/
theorem init_all_good_witness :
    (GRPCServer.Init (mkBootstrap [("a", Plugin.grpcCompatible ⟨"sA", none⟩),
      ("b", Plugin.grpcCompatible ⟨"sB", none⟩)] none)).1 = none ∧
    (GRPCServer.Init (mkBootstrap [("a", Plugin.grpcCompatible ⟨"sA", none⟩),
      ("b", Plugin.grpcCompatible ⟨"sB", none⟩)] none)).2.server =
      some { (mkBootstrap [("a", Plugin.grpcCompatible ⟨"sA", none⟩),
               ("b", Plugin.grpcCompatible ⟨"sB", none⟩)] none).Server
               (serverOpts (mkBootstrap [("a", Plugin.grpcCompatible ⟨"sA", none⟩),
                 ("b", Plugin.grpcCompatible ⟨"sB", none⟩)] none).TLS) with
             services := ((mkBootstrap [("a", Plugin.grpcCompatible ⟨"sA", none⟩),
               ("b", Plugin.grpcCompatible ⟨"sB", none⟩)] none).Server
               (serverOpts (mkBootstrap [("a", Plugin.grpcCompatible ⟨"sA", none⟩),
                 ("b", Plugin.grpcCompatible ⟨"sB", none⟩)] none).TLS)).services ++
               ([("a", "sA"), ("b", "sB")].map Prod.snd) } ∧
    ([("a", "sA"), ("b", "sB")].map Prod.snd).length =
      (mkBootstrap [("a", Plugin.grpcCompatible ⟨"sA", none⟩),
        ("b", Plugin.grpcCompatible ⟨"sB", none⟩)] none).Plugins.length :=
  init_all_good _ [("a", "sA"), ("b", "sB")] rfl

/-- C3: for every config value, decoding the text payload returned by
`Config()` — parsing it as the JSON record it is — yields exactly the original
`stdoutAddr` and `stderrAddr` strings (round-trip law). -/
theorem config_roundtrip (s : GRPCServer) (out : String) (s2 : GRPCServer)
    (h : GRPCServer.Config s = some (out, s2)) :
    parseConfig out = some s.config := by
  rw [Config_eq] at h
  have hout : out = String.mk (configLineChars s.config ++ ['\n']) :=
    (congrArg Prod.fst (Option.some.inj h)).symm
  subst hout
  exact parseConfig_configLine s.config

/-- C3, witness: the emitted line for the concrete relay addresses parses back
to them. -/
theorem config_roundtrip_witness :
    parseConfig "\x7b\"stdout_addr\":\"127.0.0.1:1234\",\"stderr_addr\":\"127.0.0.1:5678\"\x7d\n"
      = some (mkBootstrap [] none).config :=
  config_roundtrip (mkBootstrap [] none)
    "\x7b\"stdout_addr\":\"127.0.0.1:1234\",\"stderr_addr\":\"127.0.0.1:5678\"\x7d\n"
    (mkBootstrap [] none) rfl

/-- C4: for every config value, the payload `Config()` returns carries the
fixed field names `stdout_addr` and `stderr_addr`, and it is a self-contained
single line: everything before the terminating newline is newline-free. -/
theorem config_line_shape (s : GRPCServer) (out : String) (s2 : GRPCServer)
    (h : GRPCServer.Config s = some (out, s2)) :
    "stdout_addr".data <:+: out.data ∧ "stderr_addr".data <:+: out.data ∧
      ∃ body, out.data = body ++ ['\n'] ∧ ∀ ch ∈ body, ch ≠ '\n' := by
  rw [Config_eq] at h
  have hout : out = String.mk (configLineChars s.config ++ ['\n']) :=
    (congrArg Prod.fst (Option.some.inj h)).symm
  subst hout
  refine ⟨?_, ?_, configLineChars s.config, rfl, configLineChars_no_newline s.config⟩
  · refine ⟨['\x7b', '"'],
      ['"', ':'] ++ jsonQuote s.config.StdoutAddr ++ ",\"stderr_addr\":".data ++
        jsonQuote s.config.StderrAddr ++ "\x7d".data ++ ['\n'], ?_⟩
    show _ = configLineChars s.config ++ ['\n']
    rw [configLineChars]
    simp [List.append_assoc]
  · refine ⟨"\x7b\"stdout_addr\":".data ++ jsonQuote s.config.StdoutAddr ++ [',', '"'],
      ['"', ':'] ++ jsonQuote s.config.StderrAddr ++ "\x7d".data ++ ['\n'], ?_⟩
    show _ = configLineChars s.config ++ ['\n']
    rw [configLineChars]
    simp [List.append_assoc]

/-- C4, witness: the shape properties hold of the concrete emitted line. -/
theorem config_line_shape_witness :
    "stdout_addr".data <:+:
      ("\x7b\"stdout_addr\":\"127.0.0.1:1234\",\"stderr_addr\":\"127.0.0.1:5678\"\x7d\n" : String).data ∧
    "stderr_addr".data <:+:
      ("\x7b\"stdout_addr\":\"127.0.0.1:1234\",\"stderr_addr\":\"127.0.0.1:5678\"\x7d\n" : String).data ∧
    ∃ body,
      ("\x7b\"stdout_addr\":\"127.0.0.1:1234\",\"stderr_addr\":\"127.0.0.1:5678\"\x7d\n" : String).data
        = body ++ ['\n'] ∧ ∀ ch ∈ body, ch ≠ '\n' :=
  config_line_shape (mkBootstrap [] none)
    "\x7b\"stdout_addr\":\"127.0.0.1:1234\",\"stderr_addr\":\"127.0.0.1:5678\"\x7d\n"
    (mkBootstrap [] none) rfl

/-- C5, counterexample to the claim as stated: `Init` on a map with one
non-GRPC plugin does not succeed, yet afterwards the `server` field is
non-nil — the handle is assigned on line 64, before the registration loop can
fail, so "the server handle remains nil when Init does not succeed" is false
on the code. -/
theorem init_failure_assigns_server :
    (GRPCServer.Init (mkBootstrap [("bad", Plugin.notGrpcCompatible)] none)).1 ≠ none ∧
    (GRPCServer.Init (mkBootstrap [("bad", Plugin.notGrpcCompatible)] none)).2.server ≠ none := by
  constructor <;> decide

/-- C5 (amended): the server handle is nil before `Init` is called (callers
construct the bootstrap with the zero value) and non-nil after `Init`
returns — whether or not `Init` succeeded, since the handle is assigned
before plugin registration; in particular it is non-nil after success. -/
theorem init_always_assigns_server (s : GRPCServer) :
    ∃ srv, (GRPCServer.Init s).2.server = some srv :=
  ⟨(registerPlugins (s.Server (serverOpts s.TLS)) s.Plugins).2, rfl⟩

/-- C6: with the default factory, `Init` passes exactly zero transport
security options to the server factory when `TLS` is absent and exactly one
transport-credentials option when it is present; the resolution is a total
match with no error case. -/
theorem init_transport_security (s : GRPCServer) (hfac : s.Server = DefaultGRPCServer) :
    ∃ srv, (GRPCServer.Init s).2.server = some srv ∧
      srv.opts = (match s.TLS with
        | none => []
        | some t => [grpc.ServerOption.Creds (credentials.NewTLS t)]) ∧
      srv.opts.length = (if s.TLS.isSome then 1 else 0) := by
  refine ⟨(registerPlugins (s.Server (serverOpts s.TLS)) s.Plugins).2, rfl, ?_, ?_⟩
  · rw [registerPlugins_opts, hfac]
    cases s.TLS <;> rfl
  · rw [registerPlugins_opts, hfac]
    cases s.TLS <;> rfl

/-- C6, witness: with TLS present the server holds one credentials option,
without TLS it holds none. -/
theorem init_transport_security_witness :
    (∃ srv, (GRPCServer.Init (mkBootstrap [] (some ⟨7⟩))).2.server = some srv ∧
      srv.opts = (match (mkBootstrap [] (some ⟨7⟩)).TLS with
        | none => []
        | some t => [grpc.ServerOption.Creds (credentials.NewTLS t)]) ∧
      srv.opts.length = (if (mkBootstrap [] (some ⟨7⟩)).TLS.isSome then 1 else 0)) ∧
    (∃ srv, (GRPCServer.Init (mkBootstrap [] none)).2.server = some srv ∧
      srv.opts = (match (mkBootstrap [] none).TLS with
        | none => []
        | some t => [grpc.ServerOption.Creds (credentials.NewTLS t)]) ∧
      srv.opts.length = (if (mkBootstrap [] none).TLS.isSome then 1 else 0)) :=
  ⟨init_transport_security (mkBootstrap [] (some ⟨7⟩)) rfl,
   init_transport_security (mkBootstrap [] none) rfl⟩

/-- C7: in the transition system of a `Serve(listener)` call, whenever the
caller has returned the done signal has fired and the asynchronous accept
loop had been started beforehand, and from the blocked state the return step
is enabled exactly by the done signal; `Serve` has no error return — the
system has no failure transition, its only terminal step is the return on the
done signal. -/
theorem serve_blocks_until_done (t : ServeExec) (hr : ServeReach t) :
    (t.pc = ServePC.done → t.doneClosed = true ∧ t.accepting = true) ∧
    (t.pc = ServePC.waiting → t.doneClosed = true →
      ServeStep t ⟨ServePC.done, t.accepting, true⟩) := by
  constructor
  · intro hpc
    exact ⟨(serveReach_invariant t hr).2 hpc, (serveReach_invariant t hr).1 (Or.inr hpc)⟩
  · intro hpc hdone
    obtain ⟨pc, a, d⟩ := t
    simp only at hpc hdone
    subst hpc hdone
    exact ServeStep.recv a

/-- C7, witness: the returned state reached by spawning the accept loop,
closing the done channel and completing the receive satisfies the theorem. -/
theorem serve_blocks_until_done_witness :
    ((ServeExec.mk ServePC.done true true).pc = ServePC.done →
      (ServeExec.mk ServePC.done true true).doneClosed = true ∧
      (ServeExec.mk ServePC.done true true).accepting = true) ∧
    ((ServeExec.mk ServePC.done true true).pc = ServePC.waiting →
      (ServeExec.mk ServePC.done true true).doneClosed = true →
      ServeStep (ServeExec.mk ServePC.done true true)
        ⟨ServePC.done, (ServeExec.mk ServePC.done true true).accepting, true⟩) :=
  serve_blocks_until_done ⟨ServePC.done, true, true⟩
    (ServeReach.step
      (ServeReach.step
        (ServeReach.step ServeReach.init (ServeStep.spawn false false))
        (ServeStep.close ServePC.waiting true))
      (ServeStep.recv true))

/-- C8: `Config()` is idempotent and deterministic — a call leaves the
receiver unchanged, and a second call on the resulting state returns the
byte-identical string and the same state. -/
theorem config_idempotent (s : GRPCServer) (out : String) (s2 : GRPCServer)
    (h : GRPCServer.Config s = some (out, s2)) :
    s2 = s ∧ GRPCServer.Config s2 = some (out, s2) := by
  rw [Config_eq] at h
  have hout : out = String.mk (configLineChars s.config ++ ['\n']) :=
    (congrArg Prod.fst (Option.some.inj h)).symm
  have hs2 : s2 = s := (congrArg Prod.snd (Option.some.inj h)).symm
  subst hout hs2
  exact ⟨rfl, Config_eq _⟩

/-- C8, witness: two calls on the concrete bootstrap return the identical
line and state. -/
theorem config_idempotent_witness :
    mkBootstrap [] none = mkBootstrap [] none ∧
    GRPCServer.Config (mkBootstrap [] none) =
      some ("\x7b\"stdout_addr\":\"127.0.0.1:1234\",\"stderr_addr\":\"127.0.0.1:5678\"\x7d\n",
        mkBootstrap [] none) :=
  config_idempotent (mkBootstrap [] none)
    "\x7b\"stdout_addr\":\"127.0.0.1:1234\",\"stderr_addr\":\"127.0.0.1:5678\"\x7d\n"
    (mkBootstrap [] none) rfl

/-- C9: for every config value (an arbitrary pair of strings) the
serialization step inside `Config()` succeeds, so the branch modelling the
`panic(err)` guard is unreachable and `Config()` always returns normally. -/
theorem config_never_panics (s : GRPCServer) :
    (∃ out, GoValue.marshal (GRPCServerConfig.reflect s.config) = Except.ok out) ∧
      (GRPCServer.Config s).isSome = true := by
  refine ⟨⟨configLineChars s.config, marshal_reflect s.config⟩, ?_⟩
  rw [Config_eq]
  rfl

/-- C10: `Init` assigns only the `server` field — in every execution, success
or failure, the `Plugins`, `Server`, `TLS`, `DoneCh`, `Stdout`, `Stderr` and
`config` fields of the receiver are unchanged. -/
theorem init_frame (s : GRPCServer) :
    (GRPCServer.Init s).2.Plugins = s.Plugins ∧
    (GRPCServer.Init s).2.Server = s.Server ∧
    (GRPCServer.Init s).2.TLS = s.TLS ∧
    (GRPCServer.Init s).2.DoneCh = s.DoneCh ∧
    (GRPCServer.Init s).2.Stdout = s.Stdout ∧
    (GRPCServer.Init s).2.Stderr = s.Stderr ∧
    (GRPCServer.Init s).2.config = s.config :=
  ⟨rfl, rfl, rfl, rfl, rfl, rfl, rfl⟩
